import Mathlib

/-!
Verification of the NooraHealth sync-andhra-pradesh-ccp repository.

The repository contains two sync scripts, `api_export.py` and
`src/andhra_pradesh_ccp.py`, that pull training-session and nurse records
from an authenticated REST API and load them into BigQuery.  This file
gives a shallow embedding of the functions those scripts define —
`dict_hash`, the `Report` fetchers with token-expiry re-login,
`requests_retry_session`, `get_dates_from_bigquery`, `get_dates`,
`read_data_from_api` / `read_sessions_data_from_api` /
`read_nurses_data_from_api`, `write_data_to_bigquery`, the Slack failure
notification in `main`, and the entity loop of the second script's `main` —
and proves the spec's claims about them.

Machine-level conventions: calendar dates are embedded as `Int` day numbers
(days since 1970-01-01), so `timedelta(days = n)` is integer subtraction;
a raw JSON record (a Python `dict` with string keys) is an association list
`List (String × String)` in insertion order, the value component standing
for the serialized form of the field's value; the MD5 digest computed by
`hashlib` (a library primitive, not repository code) is a parameter
`md5hex : String → String` of the embedding.
-/

set_option maxRecDepth 8000

namespace APCCP

/-! ## Strings and the canonical key order used by json.dumps(sort_keys=True) -/

/-- Strict lexicographic order on char lists, by Unicode code point —
the order Python uses to compare `str` keys when sorting. -/
def charListLt : List Char → List Char → Bool
  | [], [] => false
  | [], _ :: _ => true
  | _ :: _, [] => false
  | c :: cs, d :: ds => decide (c < d) || (c == d && charListLt cs ds)

/-- Python string comparison `a < b`. -/
def strLt (a b : String) : Bool := charListLt a.data b.data

/-- A raw JSON record: the fields of a Python dict, in insertion order. -/
abbrev Rec := List (String × String)

/-- Total order on record fields: by key, ties broken by value.  A Python
dict has pairwise-distinct keys, so on the inputs `dict_hash` receives this
coincides with Python's sort-by-key; breaking ties by value makes the order
antisymmetric on arbitrary pair lists, which the canonicalization proofs use. -/
def fieldLe (a b : String × String) : Prop :=
  (strLt a.1 b.1 || (a.1 == b.1 && (strLt a.2 b.2 || a.2 == b.2))) = true

instance : DecidableRel fieldLe := fun _ _ => instDecidableEqBool _ _

/-- Fields of a record in canonical (key-sorted) order, as produced by
`json.dumps(dictionary, sort_keys = True)`. -/
def sortFields (d : Rec) : Rec := List.insertionSort fieldLe d

/-- Serialization of one `"key": value` member of the JSON object. -/
def jsonMember (kv : String × String) : String :=
  "\"" ++ kv.1 ++ "\": " ++ kv.2

/-- The canonical key-sorted JSON encoding `json.dumps(dictionary, sort_keys=True)`
that `dict_hash` feeds to the hash. -/
def json_dumps_sorted (d : Rec) : String :=
  "\x7b" ++ String.intercalate ", " ((sortFields d).map jsonMember) ++ "\x7d"

/-- Embedding of `dict_hash` (identical in both scripts): MD5 hex digest of
the canonical key-sorted JSON encoding of the record.  `md5hex` stands for
`hashlib.md5(..).hexdigest()`, a library primitive. -/
def dict_hash (md5hex : String → String) (d : Rec) : String :=
  md5hex (json_dumps_sorted d)

/-- The keys of a record are pairwise distinct — true of every Python dict. -/
abbrev keysNodup (d : Rec) : Prop := (d.map Prod.fst).Nodup

/-- Generic association-list lookup: value of the first pair whose key
matches, i.e. the dict/dataframe-dict access `d[k]`. -/
def findVal {β : Type} : List (String × β) → String → Option β
  | [], _ => none
  | kv :: rest, k => if kv.1 == k then some kv.2 else findVal rest k

/-- Field access `d[k]` on a raw record. -/
def lookupField (d : Rec) (k : String) : Option String := findVal d k

/-- Embedding of the loop `for x in records: x["md5"] = dict_hash(x)` run by
both scripts on the raw (pre-coercion) session records: each record gains an
`md5` field holding the hash of its raw contents. -/
def add_md5 (md5hex : String → String) (rs : List Rec) : List Rec :=
  rs.map fun r => r ++ [("md5", dict_hash md5hex r)]

/-! ## The authenticated API and token-expiry recovery (class Report) -/

/-- A JSON response body from the remote API:
`{result: "success"|"failed", data?: [...], error?: string}`. -/
structure RespJson where
  result : String
  error : String
  data : List Rec
deriving DecidableEq, Repr

/-- Embedding of `Report.has_token_expired`: the result is `"failed"` and the
error is one of the two recognized expiry strings. -/
def has_token_expired (r : RespJson) : Bool :=
  r.result == "failed" &&
    (r.error == "Invalid or token expired" || r.error == "Expired token")

/-- Embedding of the shared body of `Report.get_patient_training`,
`Report.get_nurse_training` and `Report.get_nurse_details` (the three differ
only in the request payload sent at the transport layer).  The argument is
the script of JSON bodies the server returns to this request as it is
re-issued; the result is the data returned to the caller together with the
number of additional `login()` calls made, or `none` if the recursion never
receives a non-expiry response (the recursion consumes one scripted response
per re-issue and has no other bound). -/
def fetch_with_relogin : List RespJson → Option (List Rec × Nat)
  | [] => none
  | r :: rest =>
    if has_token_expired r then
      match fetch_with_relogin rest with
      | some (d, n) => some (d, n + 1)
      | none => none
    else
      some (if r.result == "success" then r.data else [], 0)

/-- Embedding of `Report.get_patient_training` (payload
`{get_total_ccp_class_attendancedata: true, date: ..}`). -/
def get_patient_training (script : List RespJson) : Option (List Rec × Nat) :=
  fetch_with_relogin script

/-- Embedding of `Report.get_nurse_training` (payload
`{get_total_nurse_training_sessiondata: true, date: ..}`). -/
def get_nurse_training (script : List RespJson) : Option (List Rec × Nat) :=
  fetch_with_relogin script

/-- Embedding of `Report.get_nurse_details` (payload
`{get_nurses_detailes_data: true, username: ..}`). -/
def get_nurse_details (script : List RespJson) : Option (List Rec × Nat) :=
  fetch_with_relogin script

/-! ## Transport retry (requests_retry_session vs. plain requests.get) -/

/-- The `status_forcelist` of `requests_retry_session` in
`src/andhra_pradesh_ccp.py`. -/
def status_forcelist : List Nat := [500, 502, 503, 504]

/-- Retry loop of `urllib3.util.Retry`: given the budget of remaining
retries and the statuses successive attempts would produce, retry while the
status is in the forcelist and budget remains; deliver the first
non-transient status, or the last transient one once the budget is
exhausted.  `none` means the outcome script ran out. -/
def retryGet : Nat → List Nat → Option Nat
  | _, [] => none
  | b, s :: rest =>
    if s ∈ status_forcelist then
      match b with
      | 0 => some s
      | b' + 1 => retryGet b' rest
    else
      some s

/-- Embedding of a GET through `requests_retry_session()` in
`src/andhra_pradesh_ccp.py`: `Retry(total = 10, backoff_factor = 0.5,
status_forcelist = (500, 502, 503, 504))` mounted on the session. -/
def requests_retry_session_get (outcomes : List Nat) : Option Nat :=
  retryGet 10 outcomes

/-- Embedding of the plain `requests.get(...)` used for every call in
`api_export.py`: no retry adapter, the first outcome is the response. -/
def plain_requests_get (outcomes : List Nat) : Option Nat :=
  outcomes.head?

/-! ## Watermark resolution and date validation -/

/-- Day number of 2023-06-01, the `default_start_date` of
`get_dates_from_bigquery` in both scripts. -/
def default_start_date : Int := 19509

/-- The `overlap` parameter of `get_dates_from_bigquery`, default 30. -/
def overlapDays : Int := 30

/-- Observable warehouse state consulted by `get_dates_from_bigquery`:
whether `patient_training_sessions` exists, and if so the value of
`select max(date_of_session)` from it (`none` embeds SQL NULL). -/
structure BQState where
  patientTableExists : Bool
  maxSessionDate : Option Int
deriving DecidableEq, Repr

/-- Embedding of `get_dates_from_bigquery` (identical in both scripts):
start defaults to the fixed floor and end is yesterday; when the fact table
exists with a non-null max date `D`, start becomes `D - (overlap - 1)`. -/
def get_dates_from_bigquery (st : BQState) (today : Int) : Int × Int :=
  let dates : Int × Int := (default_start_date, today - 1)
  if st.patientTableExists then
    match st.maxSessionDate with
    | some d => (d - (overlapDays - 1), dates.2)
    | none => dates
  else
    dates

/-- The `--dest` CLI choice. -/
inductive Dest
  | bigquery
  | localDest
deriving DecidableEq, Repr

/-- Parsed CLI arguments (`--dest`, `--start-date`, `--end-date`). -/
structure Args where
  dest : Dest
  start_date : Option Int
  end_date : Option Int
deriving DecidableEq, Repr

/-- The date range `get_dates` resolves before validating it: from the
warehouse for `--dest=bigquery`, else the last-7-days default overridden by
the optional CLI dates. -/
def resolve_dates (args : Args) (st : BQState) (today : Int) : Int × Int :=
  match args.dest with
  | Dest.bigquery => get_dates_from_bigquery st today
  | Dest.localDest =>
    let start := match args.start_date with
      | some s => s
      | none => today - 7
    let stop := match args.end_date with
      | some e => e
      | none => today - 1
    (start, stop)

/-- Embedding of `get_dates` (identical in both scripts): resolve the range,
then raise on `start > end` or `end > today`. -/
def get_dates (args : Args) (st : BQState) (today : Int) :
    Except String (Int × Int) :=
  let dates := resolve_dates args st today
  if dates.1 > dates.2 then
    Except.error "Start date cannot be later than end date."
  else if dates.2 > today then
    Except.error "End date cannot be later than today."
  else
    Except.ok dates

/-- A network call made by the fetch phase of `main` in `api_export.py`:
the `report.login()` call or one entity request. -/
inductive NetEv
  | login
  | api_request
deriving DecidableEq, Repr

/-- Network calls of `main` in `api_export.py` up to and including the fetch
phase: `get_dates` runs first and an invalid range raises before
`read_data_from_api` (which begins with `report.login()`) is reached; on a
valid range the fetch phase logs in and issues one request per day of the
range (further per-phone requests are elided — the claim only needs whether
the fetch phase is reached at all). -/
def api_export_main_net_events (args : Args) (st : BQState) (today : Int) :
    List NetEv :=
  match get_dates args st today with
  | Except.error _ => []
  | Except.ok dates =>
    NetEv.login :: (List.replicate (dates.2 - dates.1 + 1).toNat NetEv.api_request)

/-! ## Warehouse writes: dimension merge and fact append -/

/-- A row of the `nurses` dimension table, as (username, remaining contents). -/
abbrev NRow := String × String

/-- A row of a fact table, as (md5 fingerprint, remaining contents). -/
abbrev FactRow := String × String

/-- The `write_dispositions` dict of `write_data_to_bigquery` (identical in
both scripts). -/
def write_dispositions : List (String × String) :=
  [("nurses", "WRITE_TRUNCATE"),
   ("patient_training_sessions", "WRITE_APPEND"),
   ("nurse_training_sessions", "WRITE_APPEND")]

/-- Embedding of polars `group_by("username").tail(1)`: keep, for each
distinct key, the last row of the frame holding that key.  (polars does not
guarantee an output order across groups; this embedding fixes the original
relative order — the claims only concern which rows survive.) -/
def group_by_key_tail1 : List NRow → List NRow
  | [] => []
  | r :: rs =>
    (if rs.any fun s => s.1 == r.1 then [] else [r]) ++ group_by_key_tail1 rs

/-- Embedding of the `nurses` branch of `write_data_to_bigquery` in
`api_export.py`: when the warehouse already has a `nurses` table, read it,
concatenate `[existing, new]`, keep the last row per username and write with
`WRITE_TRUNCATE` (full replace); when it does not, the fetched rows are
written as is.  The result is the table contents after the load. -/
def write_data_to_bigquery_nurses (existing : Option (List NRow))
    (fetched : List NRow) : List NRow :=
  match existing with
  | some old => group_by_key_tail1 (old ++ fetched)
  | none => fetched

/-- Embedding of the fact-table branch of `write_data_to_bigquery` in
`api_export.py` (and of `utils.write_bigquery` as invoked with
`WRITE_APPEND` by `src/andhra_pradesh_ccp.py`): the batch is appended
unconditionally — no row is filtered by fingerprint or otherwise.  The
result is the table contents after the load. -/
def write_data_to_bigquery_fact (old fetched : List FactRow) : List FactRow :=
  old ++ fetched

/-- Rows of a nurses table holding a given username key. -/
def rowsWithKey (t : List NRow) (k : String) : List NRow :=
  t.filter fun r => r.1 == k

/-- Whether a batch carries a row for the given key. -/
def hasKey (t : List NRow) (k : String) : Bool :=
  t.any fun r => r.1 == k

/-- Number of rows of a fact table sharing a given content fingerprint. -/
def countMd5 (t : List FactRow) (h : String) : Nat :=
  (t.filter fun r => r.1 == h).length

/-! ## Normalization of an empty batch -/

/-- Embedding of the table-producing skeleton of `read_data_from_api` in
`api_export.py`: if no patient training sessions were fetched the function
returns `None` (producing no tables at all, whatever else was fetched).
Otherwise it builds the three data frames with `pl.from_dicts`, which raises
`NoDataError` on an empty list: an empty `nurses` list aborts the run at
line 216 and an empty `nurse_trainings` list at line 233 (in that source
order), so only with all three lists non-empty are the three tables
produced, the raw session records having received their `md5` fields.
(Type coercions to dates/ints do not affect which tables exist or whether
the function raises, and are elided.) -/
def read_data_from_api (md5hex : String → String)
    (patient_trainings nurse_trainings nurses : List Rec) :
    Except String (Option (List (String × List Rec))) :=
  if patient_trainings.isEmpty then
    Except.ok none
  else if nurses.isEmpty then
    Except.error "NoDataError: no data, cannot infer schema"
  else if nurse_trainings.isEmpty then
    Except.error "NoDataError: no data, cannot infer schema"
  else
    Except.ok
      (some [("nurses", nurses),
             ("patient_training_sessions", add_md5 md5hex patient_trainings),
             ("nurse_training_sessions", add_md5 md5hex nurse_trainings)])

/-- Embedding of the table-producing skeleton of
`read_sessions_data_from_api` in `src/andhra_pradesh_ccp.py`: the
`data_frames` dict gains a key per entity kind exactly when that kind's raw
list is non-empty, each kind independently of the other. -/
def read_sessions_data_from_api (md5hex : String → String)
    (patient_trainings nurse_trainings : List Rec) :
    List (String × List Rec) :=
  (if patient_trainings.isEmpty then []
   else [("patient_training_sessions", add_md5 md5hex patient_trainings)]) ++
  (if nurse_trainings.isEmpty then []
   else [("nurse_training_sessions", add_md5 md5hex nurse_trainings)])

/-- Embedding of the table-producing skeleton of `read_nurses_data_from_api`
in `src/andhra_pradesh_ccp.py`: an empty fetched list yields an empty
`data_frames` dict, a non-empty one yields the `nurses` table. -/
def read_nurses_data_from_api (nurses : List Rec) : List (String × List Rec) :=
  if nurses.isEmpty then [] else [("nurses", nurses)]

/-! ## Failure notification in main (api_export.py) -/

/-- Run environment, from `params["environment"]`. -/
inductive Env
  | prod
  | dev
deriving DecidableEq, Repr

/-- The stage of `main`'s try block at which the run's exception arises.
`params` is a local variable bound by `params = get_params()`: it is in
scope in the except block only when the failure arose after that line. -/
inductive Stage
  | parseArgsStage
  | getParamsStage
  | getDatesStage
  | readDataStage
  | writeDataStage
deriving DecidableEq, Repr

/-- Whether `params` is bound when the except block runs. -/
def params_in_scope : Stage → Bool
  | Stage.parseArgsStage => false
  | Stage.getParamsStage => false
  | _ => true

/-- What `client.chat_postMessage` does inside `send_message_to_slack`:
posts, raises a `SlackApiError` carrying a (possibly empty) `error` field,
or raises some other exception. -/
inductive PostOutcome
  | posted
  | apiError (errorField : String)
  | otherError (e : String)
deriving DecidableEq, Repr

/-- Embedding of `send_message_to_slack`: a `SlackApiError` is caught and
`assert e.response["error"]` passes when the error field is truthy
(non-empty), swallowing the failure; a falsy field fails the assert and an
unrecognized exception propagates. -/
def send_message_to_slack : PostOutcome → Except String Unit
  | PostOutcome.posted => Except.ok ()
  | PostOutcome.apiError errorField =>
    if errorField == "" then Except.error "AssertionError" else Except.ok ()
  | PostOutcome.otherError e => Except.error e

/-- One run of `main` in `api_export.py`, as the except block sees it:
where (if anywhere) the try body raised and with what message, the run's
environment, and how the Slack post would behave if attempted. -/
structure RunSpec where
  env : Env
  failAt : Option (Stage × String)
  post : PostOutcome
deriving DecidableEq, Repr

/-- Embedding of `main`'s except block in `api_export.py`.  Result: whether
the Slack notification was invoked, and the error (if any) escaping the run.
When the try body raised before `params` was bound, looking up
`params["environment"]` in the handler itself raises a `NameError`, which
escapes in place of the original error; in prod an exception escaping
`send_message_to_slack` likewise escapes before `raise e` runs. -/
def api_export_main (rs : RunSpec) : Bool × Option String :=
  match rs.failAt with
  | none => (false, none)
  | some (st, msg) =>
    if params_in_scope st then
      match rs.env with
      | Env.prod =>
        match send_message_to_slack rs.post with
        | Except.ok _ => (true, some msg)
        | Except.error e2 => (true, some e2)
      | Env.dev => (false, some msg)
    else
      (false, some "NameError: name params is not defined")

/-! ## The entity loop of main in src/andhra_pradesh_ccp.py -/

/-- Observable actions of the entity loop in `src/andhra_pradesh_ccp.py`'s
`main`.  Write events carry the keys of the `data_frames` dict written. -/
inductive AEv
  | fetch_sessions
  | fetch_nurse_phones
  | fetch_nurses
  | write_to_bigquery (tables : List String)
  | write_to_excel (tables : List String)
deriving DecidableEq, Repr

/-- The write event the loop performs for a given destination. -/
def writeEv (dest : Dest) (tables : List String) : AEv :=
  match dest with
  | Dest.bigquery => AEv.write_to_bigquery tables
  | Dest.localDest => AEv.write_to_excel tables

/-- Embedding of the `for entity in ['sessions', 'nurses']` loop of `main`
in `src/andhra_pradesh_ccp.py`: fetch the sessions dict; `if len(data) > 0:
return None` exits the run, else the (empty) dict is written and the loop
proceeds to the nurses entity, which reads phones from BigQuery, fetches
nurse details, and again returns before writing iff its dict is non-empty.
`sessions` and `nurses` are the key lists of the two fetched dicts. -/
def andhra_main_loop (dest : Dest) (sessions nurses : List String) : List AEv :=
  AEv.fetch_sessions ::
    (if sessions.length > 0 then []
     else
       writeEv dest sessions :: AEv.fetch_nurse_phones :: AEv.fetch_nurses ::
         (if nurses.length > 0 then [] else [writeEv dest nurses]))

/-! ## Order lemmas for the canonical key sort -/

theorem charListLt_cons_iff {c d : Char} {cs ds : List Char} :
    charListLt (c :: cs) (d :: ds) = true ↔
      c < d ∨ (c = d ∧ charListLt cs ds = true) := by
  simp [charListLt, Bool.or_eq_true, Bool.and_eq_true, decide_eq_true_iff]

theorem charListLt_trans :
    ∀ l1 l2 l3 : List Char, charListLt l1 l2 = true → charListLt l2 l3 = true →
      charListLt l1 l3 = true
  | [], [], _, h1, _ => by simp [charListLt] at h1
  | [], _ :: _, [], _, h2 => by simp [charListLt] at h2
  | [], _ :: _, _ :: _, _, _ => by simp [charListLt]
  | _ :: _, [], _, h1, _ => by simp [charListLt] at h1
  | _ :: _, _ :: _, [], _, h2 => by simp [charListLt] at h2
  | c :: cs, d :: ds, e :: es, h1, h2 => by
    rw [charListLt_cons_iff] at h1 h2 ⊢
    rcases h1 with h1 | ⟨rfl, h1⟩
    · rcases h2 with h2 | ⟨rfl, _⟩
      · exact Or.inl (lt_trans h1 h2)
      · exact Or.inl h1
    · rcases h2 with h2 | ⟨rfl, h2⟩
      · exact Or.inl h2
      · exact Or.inr ⟨rfl, charListLt_trans cs ds es h1 h2⟩

theorem charListLt_asymm :
    ∀ l1 l2 : List Char, charListLt l1 l2 = true → charListLt l2 l1 = true →
      False
  | [], [], h1, _ => by simp [charListLt] at h1
  | [], _ :: _, _, h2 => by simp [charListLt] at h2
  | _ :: _, [], h1, _ => by simp [charListLt] at h1
  | c :: cs, d :: ds, h1, h2 => by
    rw [charListLt_cons_iff] at h1 h2
    rcases h1 with h1 | ⟨rfl, h1⟩
    · rcases h2 with h2 | ⟨h2, _⟩
      · exact absurd h2 (lt_asymm h1)
      · exact absurd (h2 ▸ h1) (lt_irrefl _)
    · rcases h2 with h2 | ⟨_, h2⟩
      · exact absurd h2 (lt_irrefl _)
      · exact charListLt_asymm cs ds h1 h2

theorem charListLt_irrefl (l : List Char) : charListLt l l = true → False :=
  fun h => charListLt_asymm l l h h

theorem charListLt_trichotomy :
    ∀ l1 l2 : List Char,
      charListLt l1 l2 = true ∨ l1 = l2 ∨ charListLt l2 l1 = true
  | [], [] => Or.inr (Or.inl rfl)
  | [], _ :: _ => Or.inl (by simp [charListLt])
  | _ :: _, [] => Or.inr (Or.inr (by simp [charListLt]))
  | c :: cs, d :: ds => by
    rcases lt_trichotomy c d with hcd | rfl | hdc
    · exact Or.inl (charListLt_cons_iff.mpr (Or.inl hcd))
    · rcases charListLt_trichotomy cs ds with h | rfl | h
      · exact Or.inl (charListLt_cons_iff.mpr (Or.inr ⟨rfl, h⟩))
      · exact Or.inr (Or.inl rfl)
      · exact Or.inr (Or.inr (charListLt_cons_iff.mpr (Or.inr ⟨rfl, h⟩)))
    · exact Or.inr (Or.inr (charListLt_cons_iff.mpr (Or.inl hdc)))

theorem strLt_trans {a b c : String} (h1 : strLt a b = true)
    (h2 : strLt b c = true) : strLt a c = true :=
  charListLt_trans a.data b.data c.data h1 h2

theorem strLt_asymm {a b : String} (h1 : strLt a b = true)
    (h2 : strLt b a = true) : False :=
  charListLt_asymm a.data b.data h1 h2

theorem strLt_irrefl (a : String) : strLt a a = true → False :=
  fun h => strLt_asymm h h

theorem strLt_trichotomy (a b : String) :
    strLt a b = true ∨ a = b ∨ strLt b a = true := by
  rcases charListLt_trichotomy a.data b.data with h | h | h
  · exact Or.inl h
  · exact Or.inr (Or.inl (String.ext h))
  · exact Or.inr (Or.inr h)

theorem fieldLe_iff {a b : String × String} :
    fieldLe a b ↔
      strLt a.1 b.1 = true ∨
        (a.1 = b.1 ∧ (strLt a.2 b.2 = true ∨ a.2 = b.2)) := by
  simp [fieldLe, Bool.or_eq_true, Bool.and_eq_true, beq_iff_eq]

theorem fieldLe_total (a b : String × String) : fieldLe a b ∨ fieldLe b a := by
  rcases strLt_trichotomy a.1 b.1 with h | h | h
  · exact Or.inl (fieldLe_iff.mpr (Or.inl h))
  · rcases strLt_trichotomy a.2 b.2 with h2 | h2 | h2
    · exact Or.inl (fieldLe_iff.mpr (Or.inr ⟨h, Or.inl h2⟩))
    · exact Or.inl (fieldLe_iff.mpr (Or.inr ⟨h, Or.inr h2⟩))
    · exact Or.inr (fieldLe_iff.mpr (Or.inr ⟨h.symm, Or.inl h2⟩))
  · exact Or.inr (fieldLe_iff.mpr (Or.inl h))

theorem fieldLe_trans {a b c : String × String} (h1 : fieldLe a b)
    (h2 : fieldLe b c) : fieldLe a c := by
  rw [fieldLe_iff] at h1 h2 ⊢
  rcases h1 with h1 | ⟨hk1, hv1⟩
  · rcases h2 with h2 | ⟨hk2, _⟩
    · exact Or.inl (strLt_trans h1 h2)
    · exact Or.inl (hk2 ▸ h1)
  · rcases h2 with h2 | ⟨hk2, hv2⟩
    · exact Or.inl (hk1 ▸ h2)
    · refine Or.inr ⟨hk1.trans hk2, ?_⟩
      rcases hv1 with hv1 | hv1
      · rcases hv2 with hv2 | hv2
        · exact Or.inl (strLt_trans hv1 hv2)
        · exact Or.inl (hv2 ▸ hv1)
      · rcases hv2 with hv2 | hv2
        · exact Or.inl (hv1 ▸ hv2)
        · exact Or.inr (hv1.trans hv2)

theorem fieldLe_antisymm {a b : String × String} (h1 : fieldLe a b)
    (h2 : fieldLe b a) : a = b := by
  rw [fieldLe_iff] at h1 h2
  rcases h1 with h1 | ⟨hk1, hv1⟩
  · rcases h2 with h2 | ⟨hk2, _⟩
    · exact absurd h2 fun h => strLt_asymm h1 h
    · exact absurd h1 (hk2 ▸ fun h => strLt_irrefl _ h)
  · rcases h2 with h2 | ⟨_, hv2⟩
    · exact absurd h2 (hk1 ▸ fun h => strLt_irrefl _ h)
    · rcases hv1 with hv1 | hv1
      · rcases hv2 with hv2 | hv2
        · exact absurd hv2 fun h => strLt_asymm hv1 h
        · exact absurd hv1 (hv2 ▸ fun h => strLt_irrefl _ h)
      · exact Prod.ext hk1 hv1

theorem sortFields_perm (d : Rec) : (sortFields d).Perm d :=
  List.perm_insertionSort fieldLe d

theorem sortFields_sorted (d : Rec) : List.Sorted fieldLe (sortFields d) := by
  haveI : IsTotal (String × String) fieldLe := ⟨fieldLe_total⟩
  haveI : IsTrans (String × String) fieldLe :=
    ⟨fun _ _ _ h1 h2 => fieldLe_trans h1 h2⟩
  exact List.sorted_insertionSort fieldLe d

theorem sortFields_eq_of_perm {d1 d2 : Rec} (h : d1.Perm d2) :
    sortFields d1 = sortFields d2 := by
  haveI : IsAntisymm (String × String) fieldLe :=
    ⟨fun _ _ h1 h2 => fieldLe_antisymm h1 h2⟩
  exact List.eq_of_perm_of_sorted
    (((sortFields_perm d1).trans h).trans (sortFields_perm d2).symm)
    (sortFields_sorted d1) (sortFields_sorted d2)

/-! ## Lookup is invariant under permutation for distinct keys -/

theorem findVal_perm {β : Type} :
    ∀ {l1 l2 : List (String × β)}, l1.Perm l2 →
      (l1.map Prod.fst).Nodup → ∀ k, findVal l1 k = findVal l2 k := by
  intro l1 l2 h
  induction h with
  | nil => intro _ _; rfl
  | cons x h ih =>
    intro hn k
    simp only [List.map_cons, List.nodup_cons] at hn
    by_cases hx : (x.1 == k) = true
    · simp [findVal, hx]
    · simp [findVal, hx, ih hn.2 k]
  | swap x y l =>
    intro hn k
    simp only [List.map_cons, List.nodup_cons, List.mem_cons] at hn
    have hxy : y.1 ≠ x.1 := fun h => hn.1 (Or.inl h)
    by_cases hx : (x.1 == k) = true
    · have hy : (y.1 == k) = false := by
        rw [Bool.eq_false_iff]
        intro hy
        exact hxy ((beq_iff_eq.mp hy).trans (beq_iff_eq.mp hx).symm)
      simp [findVal, hx, hy]
    · by_cases hy : (y.1 == k) = true
      · simp [findVal, hx, hy]
      · simp [findVal, hx, hy]
  | trans h1 h2 ih1 ih2 =>
    intro hn k
    have hn2 := ((h1.map Prod.fst).nodup_iff).mp hn
    exact (ih1 hn k).trans (ih2 hn2 k)

theorem lookupField_sortFields {d : Rec} (hn : keysNodup d) (k : String) :
    lookupField (sortFields d) k = lookupField d k :=
  findVal_perm (sortFields_perm d)
    (((sortFields_perm d).map Prod.fst).nodup_iff.mpr hn) k

/-! ## Rows surviving the latest-wins dimension merge -/

theorem rowsWithKey_eq_nil_of_not_any {rs : List NRow} {k : String}
    (h : rs.any (fun s => s.1 == k) = false) : rowsWithKey rs k = [] := by
  rw [rowsWithKey, List.filter_eq_nil_iff]
  intro a ha hak
  rw [List.any_eq_false] at h
  exact h a ha hak

theorem rowsWithKey_ne_nil_of_any {rs : List NRow} {k : String}
    (h : rs.any (fun s => s.1 == k) = true) : rowsWithKey rs k ≠ [] := by
  rw [List.any_eq_true] at h
  obtain ⟨x, hx, hxk⟩ := h
  intro hnil
  rw [rowsWithKey, List.filter_eq_nil_iff] at hnil
  exact hnil x hx hxk

theorem getLast?_cons_of_ne_nil {α : Type} (a : α) :
    ∀ {l : List α}, l ≠ [] → (a :: l).getLast? = l.getLast?
  | [], h => absurd rfl h
  | _ :: _, _ => List.getLast?_cons_cons

theorem rowsWithKey_cons (r : NRow) (rs : List NRow) (k : String) :
    rowsWithKey (r :: rs) k =
      if (r.1 == k) = true then r :: rowsWithKey rs k else rowsWithKey rs k := by
  simp [rowsWithKey, List.filter_cons]

theorem group_by_key_tail1_cons_of_any {r : NRow} {rs : List NRow}
    (hc : rs.any (fun s => s.1 == r.1) = true) :
    group_by_key_tail1 (r :: rs) = group_by_key_tail1 rs := by
  simp [group_by_key_tail1, hc]

theorem group_by_key_tail1_cons_of_not_any {r : NRow} {rs : List NRow}
    (hc : rs.any (fun s => s.1 == r.1) = false) :
    group_by_key_tail1 (r :: rs) = r :: group_by_key_tail1 rs := by
  simp [group_by_key_tail1, hc]

theorem rowsWithKey_group_by_key_tail1 :
    ∀ (t : List NRow) (k : String),
      rowsWithKey (group_by_key_tail1 t) k = (rowsWithKey t k).getLast?.toList
  | [], _ => rfl
  | r :: rs, k => by
    have ih := rowsWithKey_group_by_key_tail1 rs k
    by_cases hrk : (r.1 == k) = true
    · have hkr : r.1 = k := beq_iff_eq.mp hrk
      by_cases hc : rs.any (fun s => s.1 == r.1) = true
      · have hne : rowsWithKey rs k ≠ [] :=
          rowsWithKey_ne_nil_of_any (hkr ▸ hc)
        rw [group_by_key_tail1_cons_of_any hc, ih, rowsWithKey_cons, if_pos hrk,
          getLast?_cons_of_ne_nil r hne]
      · have hc' : rs.any (fun s => s.1 == r.1) = false := Bool.eq_false_iff.mpr hc
        have hnil : rowsWithKey rs k = [] :=
          rowsWithKey_eq_nil_of_not_any (hkr ▸ hc')
        rw [group_by_key_tail1_cons_of_not_any hc', rowsWithKey_cons, if_pos hrk,
          ih, hnil, rowsWithKey_cons, if_pos hrk, hnil]
        rfl
    · by_cases hc : rs.any (fun s => s.1 == r.1) = true
      · rw [group_by_key_tail1_cons_of_any hc, ih, rowsWithKey_cons, if_neg hrk]
      · have hc' : rs.any (fun s => s.1 == r.1) = false := Bool.eq_false_iff.mpr hc
        rw [group_by_key_tail1_cons_of_not_any hc', rowsWithKey_cons, if_neg hrk,
          ih, rowsWithKey_cons, if_neg hrk]

theorem rowsWithKey_getLast?_of_nodup :
    ∀ {old : List NRow}, (old.map Prod.fst).Nodup → ∀ k,
      (rowsWithKey old k).getLast?.toList = rowsWithKey old k := by
  intro old hn k
  suffices h : rowsWithKey old k = [] ∨ ∃ r, rowsWithKey old k = [r] by
    rcases h with h | ⟨r, h⟩ <;> rw [h] <;> rfl
  induction old with
  | nil => exact Or.inl rfl
  | cons r rs ih =>
    simp only [List.map_cons, List.nodup_cons] at hn
    rw [rowsWithKey, List.filter_cons]
    by_cases hrk : (r.1 == k) = true
    · rw [if_pos hrk]
      have : rowsWithKey rs k = [] := by
        rw [rowsWithKey, List.filter_eq_nil_iff]
        intro a ha hak
        exact hn.1 (by
          rw [List.mem_map]
          exact ⟨a, ha, ((beq_iff_eq.mp hak).trans (beq_iff_eq.mp hrk).symm)⟩)
      rw [← rowsWithKey, this]
      exact Or.inr ⟨r, rfl⟩
    · rw [if_neg hrk, ← rowsWithKey]
      exact ih hn.2

/-! ## Transport retry -/

theorem retryGet_cons (b : Nat) (s : Nat) (rest : List Nat) :
    retryGet b (s :: rest) =
      if s ∈ status_forcelist then
        match b with
        | 0 => some s
        | b' + 1 => retryGet b' rest
      else some s := by
  cases b <;> rfl

theorem retryGet_delivers_first_ok :
    ∀ (pre : List Nat) (b : Nat) (s : Nat) (rest : List Nat),
      pre.length ≤ b → (∀ x ∈ pre, x ∈ status_forcelist) →
      s ∉ status_forcelist → retryGet b (pre ++ s :: rest) = some s
  | [], b, s, rest, _, _, hs => by
    rw [List.nil_append, retryGet_cons, if_neg hs]
  | x :: pre', b, s, rest, hlen, hpre, hs => by
    match b with
    | 0 => exact absurd hlen (by simp)
    | b' + 1 =>
      rw [List.cons_append, retryGet_cons, if_pos (hpre x (List.mem_cons_self x pre'))]
      exact retryGet_delivers_first_ok pre' b' s rest
        (Nat.le_of_succ_le_succ hlen) (fun y hy => hpre y (List.mem_cons_of_mem x hy)) hs

theorem getLast?_append_of_ne_nil {α : Type} {l1 l2 : List α} (h : l2 ≠ []) :
    (l1 ++ l2).getLast? = l2.getLast? := by
  rw [List.getLast?_append]
  cases hl : l2.getLast? with
  | some x => rfl
  | none => exact absurd (List.getLast?_eq_none_iff.mp hl) h

/-! ## Claim theorems -/

/-- C3: watermark resolution for the bigquery destination.  When the
warehouse fact table does not exist, the resolved start is the fixed
historical floor (2023-06-01) and the end is yesterday relative to the run's
local date; when the fact table exists with a non-null
`max(date_of_session) = D`, the start is `D − (overlap − 1)` days with
overlap 30, and the end is still yesterday. -/
theorem C3_watermark_resolution (st : BQState) (today D : Int) :
    (st.patientTableExists = false →
      get_dates_from_bigquery st today = (default_start_date, today - 1)) ∧
    (st.patientTableExists = true → st.maxSessionDate = some D →
      get_dates_from_bigquery st today = (D - (overlapDays - 1), today - 1)) := by
  constructor
  · intro h
    simp [get_dates_from_bigquery, h]
  · intro h hmax
    simp [get_dates_from_bigquery, h, hmax]

/-- Witness for C3 at a concrete warehouse state and run date. -/
theorem C3_watermark_resolution_witness :
    ((⟨false, none⟩ : BQState).patientTableExists = false ∧
      get_dates_from_bigquery ⟨false, none⟩ 20000 = (default_start_date, 20000 - 1)) ∧
    ((⟨true, some 19900⟩ : BQState).patientTableExists = true ∧
      (⟨true, some 19900⟩ : BQState).maxSessionDate = some 19900 ∧
      get_dates_from_bigquery ⟨true, some 19900⟩ 20000 =
        (19900 - (overlapDays - 1), 20000 - 1)) :=
  ⟨⟨rfl, (C3_watermark_resolution ⟨false, none⟩ 20000 0).1 rfl⟩,
   ⟨rfl, rfl, (C3_watermark_resolution ⟨true, some 19900⟩ 20000 19900).2 rfl rfl⟩⟩

/-- C4: date-range validation.  If the resolved range has `start > end` or
`end > today`, `get_dates` raises the configuration error, and the fetch
phase of `main` — the `report.login()` call and every API request — is never
reached: the run makes no network call. -/
theorem C4_invalid_range_raises_before_fetch (args : Args) (st : BQState)
    (today : Int)
    (h : (resolve_dates args st today).1 > (resolve_dates args st today).2 ∨
      (resolve_dates args st today).2 > today) :
    (∃ e, get_dates args st today = Except.error e) ∧
      api_export_main_net_events args st today = [] := by
  have herr : ∃ e, get_dates args st today = Except.error e := by
    by_cases h1 : (resolve_dates args st today).1 > (resolve_dates args st today).2
    · exact ⟨"Start date cannot be later than end date.", by rw [get_dates]; simp [h1]⟩
    · have h2 : (resolve_dates args st today).2 > today := h.resolve_left h1
      exact ⟨"End date cannot be later than today.", by rw [get_dates]; simp [h1, h2]⟩
  obtain ⟨e, he⟩ := herr
  exact ⟨⟨e, he⟩, by simp [api_export_main_net_events, he]⟩

/-- Witness for C4: a local run with `--start-date` after `--end-date`. -/
theorem C4_invalid_range_raises_before_fetch_witness :
    ((resolve_dates ⟨Dest.localDest, some 10, some 5⟩ ⟨false, none⟩ 20).1 >
        (resolve_dates ⟨Dest.localDest, some 10, some 5⟩ ⟨false, none⟩ 20).2 ∨
      (resolve_dates ⟨Dest.localDest, some 10, some 5⟩ ⟨false, none⟩ 20).2 > 20) ∧
    (∃ e, get_dates ⟨Dest.localDest, some 10, some 5⟩ ⟨false, none⟩ 20 =
      Except.error e) ∧
    api_export_main_net_events ⟨Dest.localDest, some 10, some 5⟩ ⟨false, none⟩ 20 =
      [] :=
  ⟨Or.inl (by decide),
    C4_invalid_range_raises_before_fetch ⟨Dest.localDest, some 10, some 5⟩
      ⟨false, none⟩ 20 (Or.inl (by decide))⟩

/-- C5: token-expiry recovery and empty-result semantics, for each of the
three entity-fetch operations.  A fetch whose first response is an expiry
error and whose re-issued request succeeds yields the successful data with
exactly one additional login; a `"failed"` response with any other error
yields an empty list for that unit, with no re-login and no exception. -/
theorem C5_token_expiry_recovery (x s r : RespJson) (rest : List RespJson) :
    (has_token_expired x = true → s.result = "success" →
      get_patient_training [x, s] = some (s.data, 1) ∧
      get_nurse_training [x, s] = some (s.data, 1) ∧
      get_nurse_details [x, s] = some (s.data, 1)) ∧
    (r.result = "failed" → r.error ≠ "Invalid or token expired" →
      r.error ≠ "Expired token" →
      get_patient_training (r :: rest) = some ([], 0) ∧
      get_nurse_training (r :: rest) = some ([], 0) ∧
      get_nurse_details (r :: rest) = some ([], 0)) := by
  constructor
  · intro hx hs
    have hsexp : has_token_expired s = false := by
      simp [has_token_expired, hs]
    have hcore : fetch_with_relogin [x, s] = some (s.data, 1) := by
      simp [fetch_with_relogin, hx, hsexp, hs]
    exact ⟨hcore, hcore, hcore⟩
  · intro hr he1 he2
    have hrexp : has_token_expired r = false := by
      simp [has_token_expired, hr, he1, he2]
    have hcore : fetch_with_relogin (r :: rest) = some ([], 0) := by
      simp [fetch_with_relogin, hrexp, hr]
    exact ⟨hcore, hcore, hcore⟩

/-- Witness for C5: a concrete expiry-then-success script and a concrete
non-expiry failure script. -/
theorem C5_token_expiry_recovery_witness :
    (has_token_expired ⟨"failed", "Expired token", []⟩ = true ∧
      ("success" : String) = "success" ∧
      get_patient_training
          [⟨"failed", "Expired token", []⟩, ⟨"success", "", [[("a", "1")]]⟩] =
        some ([[("a", "1")]], 1)) ∧
    (get_nurse_details [⟨"failed", "No data found", []⟩] = some ([], 0)) :=
  ⟨⟨by decide, rfl,
    ((C5_token_expiry_recovery ⟨"failed", "Expired token", []⟩
      ⟨"success", "", [[("a", "1")]]⟩ ⟨"failed", "No data found", []⟩ []).1
      (by decide) rfl).1⟩,
   ((C5_token_expiry_recovery ⟨"failed", "Expired token", []⟩
      ⟨"success", "", [[("a", "1")]]⟩ ⟨"failed", "No data found", []⟩ []).2
      rfl (by decide) (by decide)).2.2⟩

theorem rowsWithKey_append (a b : List NRow) (k : String) :
    rowsWithKey (a ++ b) k = rowsWithKey a k ++ rowsWithKey b k := by
  simp [rowsWithKey, List.filter_append]

/-- C1: the personnel dimension load is a latest-wins merge.  With an
existing `nurses` table, the load keeps, per username, exactly the last row
of the concatenation `[existing, new]` and replaces the whole table: every
key fetched this run survives as the freshly fetched version (the last row
of the new batch for that key), every key present only in the existing
table is preserved unchanged, and loading batch A (`"91234"` version 1)
then batch B (`"91234"` version 2 plus new key `"99999"`) yields exactly
the two rows `("91234", version 2)` and `("99999", ...)`. -/
theorem C1_dimension_merge_latest_wins (old fetched : List NRow) (k : String) :
    (hasKey fetched k = true →
      rowsWithKey (write_data_to_bigquery_nurses (some old) fetched) k =
        (rowsWithKey fetched k).getLast?.toList) ∧
    (hasKey fetched k = false → keysNodup old →
      rowsWithKey (write_data_to_bigquery_nurses (some old) fetched) k =
        rowsWithKey old k) ∧
    (write_data_to_bigquery_nurses
        (some (write_data_to_bigquery_nurses none [("91234", "version 1")]))
        [("91234", "version 2"), ("99999", "new nurse")] =
      [("91234", "version 2"), ("99999", "new nurse")] ∧
      (write_data_to_bigquery_nurses
        (some (write_data_to_bigquery_nurses none [("91234", "version 1")]))
        [("91234", "version 2"), ("99999", "new nurse")]).length = 2) := by
  refine ⟨?_, ?_, by decide⟩
  · intro hk
    have hne : rowsWithKey fetched k ≠ [] := rowsWithKey_ne_nil_of_any hk
    rw [write_data_to_bigquery_nurses, rowsWithKey_group_by_key_tail1,
      rowsWithKey_append, getLast?_append_of_ne_nil hne]
  · intro hk hn
    have hnil : rowsWithKey fetched k = [] := rowsWithKey_eq_nil_of_not_any hk
    rw [write_data_to_bigquery_nurses, rowsWithKey_group_by_key_tail1,
      rowsWithKey_append, hnil, List.append_nil,
      rowsWithKey_getLast?_of_nodup hn k]

/-- Witness for C1 at a concrete existing table and fetched batch: key
`"77"` is re-fetched and its new version survives; key `"88"` is not
re-fetched and its existing row is preserved. -/
theorem C1_dimension_merge_latest_wins_witness :
    (hasKey [("77", "new"), ("12", "x")] "77" = true ∧
      rowsWithKey
          (write_data_to_bigquery_nurses (some [("77", "old"), ("88", "keep")])
            [("77", "new"), ("12", "x")]) "77" =
        (rowsWithKey [("77", "new"), ("12", "x")] "77").getLast?.toList) ∧
    (hasKey [("77", "new"), ("12", "x")] "88" = false ∧
      keysNodup [("77", "old"), ("88", "keep")] ∧
      rowsWithKey
          (write_data_to_bigquery_nurses (some [("77", "old"), ("88", "keep")])
            [("77", "new"), ("12", "x")]) "88" =
        rowsWithKey [("77", "old"), ("88", "keep")] "88") :=
  ⟨⟨by decide,
    (C1_dimension_merge_latest_wins [("77", "old"), ("88", "keep")]
      [("77", "new"), ("12", "x")] "77").1 (by decide)⟩,
   ⟨by decide, by decide,
    (C1_dimension_merge_latest_wins [("77", "old"), ("88", "keep")]
      [("77", "new"), ("12", "x")] "88").2.1 (by decide) (by decide)⟩⟩

/-- C6: content fingerprinting.  (a) Two raw records equal as key-value maps
(the same fields in any insertion order) get equal fingerprints, for every
hash function, because the hash is taken over the canonical key-sorted JSON
encoding; (b) records with different field contents have different canonical
forms, so their fingerprints differ up to hash collision; (c) the `md5`
field each script adds to a session record is `dict_hash` of the raw,
pre-coercion record. -/
theorem C6_dict_hash_canonical (md5hex : String → String) (d1 d2 : Rec) :
    (keysNodup d1 → d1.Perm d2 →
      dict_hash md5hex d1 = dict_hash md5hex d2) ∧
    (keysNodup d1 → keysNodup d2 →
      (∃ k, lookupField d1 k ≠ lookupField d2 k) →
      sortFields d1 ≠ sortFields d2) ∧
    (∀ (rs : List Rec) (r : Rec), r ∈ rs →
      r ++ [("md5", dict_hash md5hex r)] ∈ add_md5 md5hex rs) := by
  refine ⟨?_, ?_, ?_⟩
  · intro _ hperm
    rw [dict_hash, dict_hash, json_dumps_sorted, json_dumps_sorted,
      sortFields_eq_of_perm hperm]
  · rintro hn1 hn2 ⟨k, hk⟩ heq
    apply hk
    rw [← lookupField_sortFields hn1 k, ← lookupField_sortFields hn2 k, heq]
  · intro rs r hr
    exact List.mem_map_of_mem _ hr

/-- Witness for C6: two insertion orders of the same two-field record hash
identically, and two records differing in one field have different canonical
forms. -/
theorem C6_dict_hash_canonical_witness :
    (keysNodup [("b", "2"), ("a", "1")] ∧
      List.Perm [("b", "2"), ("a", "1")] [("a", "1"), ("b", "2")] ∧
      dict_hash (fun t => t) [("b", "2"), ("a", "1")] =
        dict_hash (fun t => t) [("a", "1"), ("b", "2")]) ∧
    ((∃ k, lookupField [("a", "1")] k ≠ lookupField [("a", "2")] k) ∧
      sortFields [("a", "1")] ≠ sortFields [("a", "2")]) ∧
    ([("a", "1"), ("md5", dict_hash (fun t => t) [("a", "1")])] ∈
      add_md5 (fun t => t) [[("a", "1")]]) :=
  ⟨⟨by decide, by decide,
    (C6_dict_hash_canonical (fun t => t) [("b", "2"), ("a", "1")]
      [("a", "1"), ("b", "2")]).1 (by decide) (by decide)⟩,
   ⟨⟨"a", by decide⟩,
    (C6_dict_hash_canonical (fun t => t) [("a", "1")] [("a", "2")]).2.1
      (by decide) (by decide) ⟨"a", by decide⟩⟩,
   (C6_dict_hash_canonical (fun t => t) [("a", "1")] [("a", "2")]).2.2
     [[("a", "1")]] [("a", "1")] (by decide)⟩

/-- C2 counterexample: re-loading a row whose content fingerprint already
exists in the fact table is not excluded — after the append the table holds
two rows sharing the fingerprint, contradicting the claimed dedup-on-append. -/
theorem C2_fact_dedup_counterexample :
    write_data_to_bigquery_fact [("f3a1", "row")] [("f3a1", "row")] =
      [("f3a1", "row"), ("f3a1", "row")] ∧
    countMd5 (write_data_to_bigquery_fact [("f3a1", "row")] [("f3a1", "row")])
      "f3a1" = 2 ∧
    ¬ countMd5 (write_data_to_bigquery_fact [("f3a1", "row")] [("f3a1", "row")])
      "f3a1" ≤ 1 := by
  decide

/-- C2 amended: the fact tables use the append-only write disposition and
the batch is appended unconditionally — per-fingerprint row counts add up
across loads, so re-fetched identical rows accumulate (the fingerprint is an
audit column, not a merge key). -/
theorem C2_fact_append_unconditional (old fetched : List FactRow) (h : String) :
    countMd5 (write_data_to_bigquery_fact old fetched) h =
      countMd5 old h + countMd5 fetched h ∧
    findVal write_dispositions "patient_training_sessions" =
      some "WRITE_APPEND" ∧
    findVal write_dispositions "nurse_training_sessions" =
      some "WRITE_APPEND" := by
  refine ⟨?_, by decide, by decide⟩
  simp [countMd5, write_data_to_bigquery_fact, List.filter_append]

/-- C7 counterexample: `api_export.py` violates the claim at two concrete
inputs.  An empty patient-training batch makes `read_data_from_api` return
`None` — no table is produced for the nurse-training kind even though its
raw list is non-empty, and that data is discarded; and with a non-empty
patient batch, an empty nurse-training list makes `pl.from_dicts([])` raise
`NoDataError` — the absent kind aborts the run instead of being treated as
nothing to load. -/
theorem C7_empty_batch_counterexample :
    read_data_from_api (fun t => t) [] [[("a", "1")]] [[("u", "n")]] =
      Except.ok none ∧
    ([[("a", "1")]] : List Rec) ≠ [] ∧
    read_data_from_api (fun t => t) [[("a", "1")]] [] [[("u", "n")]] =
      Except.error "NoDataError: no data, cannot infer schema" := by
  refine ⟨rfl, by decide, rfl⟩

/-- C7 amended: in `src/andhra_pradesh_ccp.py` each entity kind's table is
produced exactly when that kind's raw list is non-empty, each kind
independently of the others, and an absent table is just an absent dict key;
in `api_export.py`, however, an empty patient-training list makes
`read_data_from_api` return `None`, discarding the other kinds' data, and
with a non-empty patient list an empty `nurses` or `nurse_trainings` list
makes `pl.from_dicts` raise `NoDataError`, aborting the run — only with all
three lists non-empty are the three tables produced. -/
theorem C7_empty_batch_no_table (md5hex : String → String)
    (patient nurse nurses : List Rec) :
    (findVal (read_sessions_data_from_api md5hex patient nurse)
        "patient_training_sessions" =
      if patient.isEmpty then none else some (add_md5 md5hex patient)) ∧
    (findVal (read_sessions_data_from_api md5hex patient nurse)
        "nurse_training_sessions" =
      if nurse.isEmpty then none else some (add_md5 md5hex nurse)) ∧
    (findVal (read_nurses_data_from_api nurses) "nurses" =
      if nurses.isEmpty then none else some nurses) ∧
    (patient.isEmpty = true →
      read_data_from_api md5hex patient nurse nurses = Except.ok none) ∧
    (patient.isEmpty = false → nurses.isEmpty = false → nurse.isEmpty = false →
      read_data_from_api md5hex patient nurse nurses =
        Except.ok
          (some [("nurses", nurses),
                 ("patient_training_sessions", add_md5 md5hex patient),
                 ("nurse_training_sessions", add_md5 md5hex nurse)])) ∧
    (patient.isEmpty = false →
      nurses.isEmpty = true ∨ nurse.isEmpty = true →
      ∃ e, read_data_from_api md5hex patient nurse nurses =
        Except.error e) := by
  refine ⟨?_, ?_, ?_, ?_, ?_, ?_⟩
  · cases patient with
    | nil => cases nurse <;> simp +decide [read_sessions_data_from_api, findVal]
    | cons p ps => simp +decide [read_sessions_data_from_api, findVal]
  · cases patient with
    | nil => cases nurse <;> simp +decide [read_sessions_data_from_api, findVal]
    | cons p ps => cases nurse <;> simp +decide [read_sessions_data_from_api, findVal]
  · cases nurses <;> simp +decide [read_nurses_data_from_api, findVal]
  · intro hp
    simp [read_data_from_api, hp]
  · intro hp hn hnt
    simp [read_data_from_api, hp, hn, hnt]
  · intro hp hempty
    refine ⟨"NoDataError: no data, cannot infer schema", ?_⟩
    rcases hempty with hn | hnt
    · simp [read_data_from_api, hp, hn]
    · by_cases hn : nurses.isEmpty = true
      · simp [read_data_from_api, hp, hn]
      · simp [read_data_from_api, hp, hnt, Bool.eq_false_iff.mpr hn]

/-- Witness for the C7 amended theorem: the andhra script omits exactly the
empty kind's table; the api_export script produces all three tables when
all three lists are non-empty, returns no tables on an empty patient list,
and raises on an empty nurse-training list with a non-empty patient list. -/
theorem C7_empty_batch_no_table_witness :
    (findVal (read_sessions_data_from_api (fun t => t) [[("a", "1")]] [])
        "nurse_training_sessions" =
      if ([] : List Rec).isEmpty then none
      else some (add_md5 (fun t => t) [])) ∧
    (([[("a", "1")]] : List Rec).isEmpty = false ∧
      ([[("u", "n")]] : List Rec).isEmpty = false ∧
      ([[("b", "2")]] : List Rec).isEmpty = false ∧
      read_data_from_api (fun t => t) [[("a", "1")]] [[("b", "2")]]
          [[("u", "n")]] =
        Except.ok
          (some [("nurses", [[("u", "n")]]),
                 ("patient_training_sessions",
                   add_md5 (fun t => t) [[("a", "1")]]),
                 ("nurse_training_sessions",
                   add_md5 (fun t => t) [[("b", "2")]])])) ∧
    (([] : List Rec).isEmpty = true ∧
      read_data_from_api (fun t => t) [] [[("a", "1")]] [] = Except.ok none) ∧
    (∃ e, read_data_from_api (fun t => t) [[("a", "1")]] [] [[("u", "n")]] =
      Except.error e) :=
  ⟨(C7_empty_batch_no_table (fun t => t) [[("a", "1")]] [] []).2.1,
   ⟨rfl, rfl, rfl,
    (C7_empty_batch_no_table (fun t => t) [[("a", "1")]] [[("b", "2")]]
      [[("u", "n")]]).2.2.2.2.1 rfl rfl rfl⟩,
   ⟨rfl, (C7_empty_batch_no_table (fun t => t) [] [[("a", "1")]] []).2.2.2.1 rfl⟩,
   (C7_empty_batch_no_table (fun t => t) [[("a", "1")]] [] [[("u", "n")]]).2.2.2.2.2
     rfl (Or.inr rfl)⟩

/-- C8 counterexample: the retry policy is not uniform across both scripts —
on a first-attempt 503, the plain `requests.get` transport of
`api_export.py` surfaces the transient failure while the retry session of
`src/andhra_pradesh_ccp.py` retries and delivers the next outcome. -/
theorem C8_retry_counterexample :
    plain_requests_get [503, 200] = some 503 ∧
    requests_retry_session_get [503, 200] = some 200 ∧
    503 ∈ status_forcelist ∧
    plain_requests_get [503, 200] ≠ requests_retry_session_get [503, 200] := by
  decide

/-- C8 amended: every call in `src/andhra_pradesh_ccp.py` goes through
`requests_retry_session()`, which retries while the status is in the
transient class 500/502/503/504, up to a budget of 10 retries, and delivers
a non-transient status immediately; `api_export.py` issues its calls with
plain `requests.get`, which performs no retry, so the first outcome is
surfaced there whatever its status. -/
theorem C8_retry_policy (pre : List Nat) (s : Nat) (rest : List Nat)
    (hlen : pre.length ≤ 10) (hpre : ∀ x ∈ pre, x ∈ status_forcelist)
    (hs : s ∉ status_forcelist) :
    requests_retry_session_get (pre ++ s :: rest) = some s ∧
    plain_requests_get (s :: rest) = some s ∧
    status_forcelist = [500, 502, 503, 504] :=
  ⟨retryGet_delivers_first_ok pre 10 s rest hlen hpre hs, rfl, rfl⟩

/-- Witness for C8: two transient failures then a 404, which is delivered. -/
theorem C8_retry_policy_witness :
    ([503, 500] : List Nat).length ≤ 10 ∧ (∀ x ∈ [503, 500], x ∈ status_forcelist) ∧
    404 ∉ status_forcelist ∧
    requests_retry_session_get ([503, 500] ++ 404 :: [200]) = some 404 ∧
    plain_requests_get (404 :: [200]) = some 404 :=
  ⟨by decide, by decide, by decide,
   (C8_retry_policy [503, 500] 404 [200] (by decide) (by decide) (by decide)).1,
   (C8_retry_policy [503, 500] 404 [200] (by decide) (by decide) (by decide)).2.1⟩

/-- C9 counterexample: in a prod run whose fetch fails, an unrecognized
exception escaping the Slack post replaces the original error — the
original `"API down"` is not re-raised. -/
theorem C9_notification_counterexample :
    api_export_main
        ⟨Env.prod, some (Stage.readDataStage, "API down"),
          PostOutcome.otherError "slack connection refused"⟩ =
      (true, some "slack connection refused") ∧
    some "slack connection refused" ≠ some "API down" := by
  decide

/-- C9 amended: when the failure arises after `params` is bound, the Slack
notification is invoked iff the environment is prod, and the original
exception is re-raised when the notification succeeds (including a
`SlackApiError` swallowed by the handler) — but an unrecognized failure
inside the notification step escapes in place of the original error, and a
failure arising before `params` is bound makes the handler itself raise a
`NameError` instead of notifying or re-raising. -/
theorem C9_failure_notification (rs : RunSpec) (st : Stage) (msg : String) :
    (rs.failAt = none → api_export_main rs = (false, none)) ∧
    (rs.failAt = some (st, msg) → params_in_scope st = true →
      ((rs.env = Env.prod →
          (api_export_main rs).1 = true ∧
          (send_message_to_slack rs.post = Except.ok () →
            (api_export_main rs).2 = some msg) ∧
          (∀ e2, send_message_to_slack rs.post = Except.error e2 →
            (api_export_main rs).2 = some e2)) ∧
        (rs.env = Env.dev → api_export_main rs = (false, some msg)))) ∧
    (rs.failAt = some (st, msg) → params_in_scope st = false →
      api_export_main rs =
        (false, some "NameError: name params is not defined")) := by
  refine ⟨?_, ?_, ?_⟩
  · intro h
    simp [api_export_main, h]
  · intro hf hsc
    constructor
    · intro henv
      refine ⟨?_, ?_, ?_⟩
      · cases hpost : send_message_to_slack rs.post <;>
          simp [api_export_main, hf, hsc, henv, hpost]
      · intro hpost
        simp [api_export_main, hf, hsc, henv, hpost]
      · intro e2 hpost
        simp [api_export_main, hf, hsc, henv, hpost]
    · intro henv
      simp [api_export_main, hf, hsc, henv]
  · intro hf hsc
    simp [api_export_main, hf, hsc]

/-- Witness for C9: a prod run failing at the fetch stage with a successful
notification re-raises the original error; a dev run does not notify; a
prod run failing inside `get_params` raises the handler's own `NameError`. -/
theorem C9_failure_notification_witness :
    ((⟨Env.prod, some (Stage.readDataStage, "boom"), PostOutcome.posted⟩ :
        RunSpec).failAt = some (Stage.readDataStage, "boom") ∧
      params_in_scope Stage.readDataStage = true ∧
      (api_export_main
        ⟨Env.prod, some (Stage.readDataStage, "boom"), PostOutcome.posted⟩).1 =
        true ∧
      (api_export_main
        ⟨Env.prod, some (Stage.readDataStage, "boom"), PostOutcome.posted⟩).2 =
        some "boom") ∧
    (api_export_main
        ⟨Env.dev, some (Stage.readDataStage, "boom"), PostOutcome.posted⟩ =
      (false, some "boom")) ∧
    (params_in_scope Stage.getParamsStage = false ∧
      api_export_main
          ⟨Env.prod, some (Stage.getParamsStage, "yaml parse error"),
            PostOutcome.posted⟩ =
        (false, some "NameError: name params is not defined")) :=
  ⟨⟨rfl, rfl,
    (((C9_failure_notification
        ⟨Env.prod, some (Stage.readDataStage, "boom"), PostOutcome.posted⟩
        Stage.readDataStage "boom").2.1 rfl rfl).1 rfl).1,
    (((C9_failure_notification
        ⟨Env.prod, some (Stage.readDataStage, "boom"), PostOutcome.posted⟩
        Stage.readDataStage "boom").2.1 rfl rfl).1 rfl).2.1 rfl⟩,
   ((C9_failure_notification
        ⟨Env.dev, some (Stage.readDataStage, "boom"), PostOutcome.posted⟩
        Stage.readDataStage "boom").2.1 rfl rfl).2 rfl,
   ⟨rfl,
    (C9_failure_notification
        ⟨Env.prod, some (Stage.getParamsStage, "yaml parse error"),
          PostOutcome.posted⟩
        Stage.getParamsStage "yaml parse error").2.2 rfl rfl⟩⟩

/-- C10 counterexample: the personnel phase is reachable — on a run whose
sessions fetch yields an empty dict, the loop proceeds to the nurses entity
and reads the nurse phones, so "the personnel phase is never reached" fails. -/
theorem C10_personnel_phase_counterexample :
    AEv.fetch_nurse_phones ∈ andhra_main_loop Dest.bigquery [] ["nurses"] ∧
    andhra_main_loop Dest.bigquery [] ["nurses"] ≠ [AEv.fetch_sessions] := by
  decide

/-- C10 amended: in `src/andhra_pradesh_ccp.py`'s `main`, a non-empty
fetched dict makes the run return before any warehouse or Excel write, so
the write branch only ever runs on an empty dict; the personnel phase is
reached exactly when the sessions fetch produced an empty dict (not never). -/
theorem C10_andhra_main_never_writes (dest : Dest)
    (sessions nurses : List String) :
    (sessions ≠ [] →
      andhra_main_loop dest sessions nurses = [AEv.fetch_sessions]) ∧
    (∀ t, AEv.write_to_bigquery t ∈ andhra_main_loop dest sessions nurses →
      t = []) ∧
    (∀ t, AEv.write_to_excel t ∈ andhra_main_loop dest sessions nurses →
      t = []) ∧
    (AEv.fetch_nurse_phones ∈ andhra_main_loop dest sessions nurses ↔
      sessions = []) := by
  cases dest <;> cases sessions <;> cases nurses <;>
    simp [andhra_main_loop, writeEv]

/-- Witness for C10: with a non-empty sessions dict the run stops after the
sessions fetch; with an empty one the personnel phase runs. -/
theorem C10_andhra_main_never_writes_witness :
    (["patient_training_sessions"] : List String) ≠ [] ∧
    andhra_main_loop Dest.bigquery ["patient_training_sessions"] [] =
      [AEv.fetch_sessions] ∧
    (AEv.fetch_nurse_phones ∈ andhra_main_loop Dest.bigquery [] ["nurses"] ↔
      ([] : List String) = []) :=
  ⟨by decide,
   (C10_andhra_main_never_writes Dest.bigquery ["patient_training_sessions"]
      []).1 (by decide),
   (C10_andhra_main_never_writes Dest.bigquery [] ["nurses"]).2.2.2⟩

end APCCP
